import Mathlib

/-!
Shallow embedding of the mcp-gateway backend runtime
(src/mcp_gateway/config.py, backend.py, gateway.py) and proofs about it.

JSON values are modelled by the inductive `Json`; Python dictionaries are
association lists preserving insertion order, as CPython dicts do.  Python
`None` is `Json.null`.  Transport I/O (subprocess pipes, HTTP) is modelled
by explicit oracle arguments describing the wire outcome; everything else
is translated statement-by-statement from the source.
-/

/-- JSON values (Python objects flowing through the gateway). -/
inductive Json where
  | null
  | bool (b : Bool)
  | num (n : Int)
  | str (s : String)
  | arr (items : List Json)
  | obj (fields : List (String × Json))

/-- Python truthiness (`if x:`) for the JSON fragment we model:
`None`, `False`, `0`, `""`, `[]`, `{}` are falsy, everything else truthy. -/
def pyTruthy : Json → Bool
  | .null => false
  | .bool b => b
  | .num n => !(n == 0)
  | .str s => !(s == "")
  | .arr items => !items.isEmpty
  | .obj fields => !fields.isEmpty

/-- Truthiness of an optional value (`None` when absent). -/
def pyTruthyOpt : Option Json → Bool
  | none => false
  | some j => pyTruthy j

/-- Truthiness of an optional Python string (`None` and `""` falsy). -/
def pyTruthyStr : Option String → Bool
  | none => false
  | some s => !(s == "")

/-- Dictionary lookup `d[k]` as an option (`none` = key absent). -/
def jsonGet : Json → String → Option Json
  | .obj fields, k => fields.lookup k
  | _, _ => none

/-- Python `d.get(k)`: the value, or `None` when the key is absent.
(Only ever applied to dicts in the source; non-dicts yield `null` here.) -/
def pyGet (j : Json) (k : String) : Json :=
  (jsonGet j k).getD Json.null

/-- Python `d.get(k, default)`. -/
def pyGetD (j : Json) (k : String) (d : Json) : Json :=
  (jsonGet j k).getD d

/-- Python `k in d` for dicts. -/
def hasKey (j : Json) (k : String) : Bool :=
  (jsonGet j k).isSome

/-- `d[k] = v` on an association list: replace the first binding in place
(CPython keeps the original slot) or append a new one at the end. -/
def setFields : List (String × Json) → String → Json → List (String × Json)
  | [], k, v => [(k, v)]
  | (k', v') :: rest, k, v =>
    if k' == k then (k', v) :: rest else (k', v') :: setFields rest k v

/-- `d[k] = v` on a JSON value; assignment targets are always dicts in the
source, so non-objects are returned unchanged. -/
def setField : Json → String → Json → Json
  | .obj fields, k, v => .obj (setFields fields k v)
  | j, _, _ => j

/-- Python `x == "s"` where `x` is an arbitrary value: true exactly when
`x` is that string. -/
def jsonEqStr : Json → String → Bool
  | .str a, b => a == b
  | _, _ => false

/-- ASCII lowering of one character (model of `str.lower` on the ASCII
strings the gateway handles). -/
def lowerChar (c : Char) : Char :=
  if 'A' ≤ c && c ≤ 'Z' then Char.ofNat (c.toNat + 32) else c

/-- Model of Python `s.lower()`. -/
def pyLower (s : String) : String :=
  String.mk (s.data.map lowerChar)

/-- `needle` occurs as a contiguous sublist of `hay`. -/
def listInfix (needle : List Char) : List Char → Bool
  | [] => needle.isEmpty
  | c :: rest => needle.isPrefixOf (c :: rest) || listInfix needle rest

/-- Python substring test `needle in hay`. -/
def pyInStr (needle hay : String) : Bool :=
  listInfix needle.data hay.data

/-- Python slicing `s[:n]`. -/
def pyTake (s : String) (n : Nat) : String :=
  String.mk (s.data.take n)

/-- `x` rendered inside an f-string; the source only ever interpolates
strings and scalars here (container reprs are outside the model). -/
def pyFormat : Json → String
  | .str s => s
  | .null => "None"
  | .bool true => "True"
  | .bool false => "False"
  | .num n => toString n
  | .arr _ => ""
  | .obj _ => ""

/-- A value interpreted as a Python `str` (the source would raise on a
non-string; those inputs are outside the model). -/
def asStr : Json → String
  | .str s => s
  | _ => ""

/-! ## Configuration (config.py) -/

/-- `BackendConfig` fields relevant to the runtime (config.py lines 33-48).
Environment-variable expansion happens before these fields are read and is
out of scope here. -/
structure BackendConfig where
  name : String
  description : String := ""
  command : Option String := none
  http_url : Option String := none
  env : List (String × String) := []
  headers : List (String × String) := []
  cwd : Option String := none
  idle_timeout : Int := 300
  enabled : Bool := true

/-- `BackendConfig.validate_transport` (config.py lines 66-75): the
model validator run at construction; raising `ValueError` is `Except.error`. -/
def validate_transport (c : BackendConfig) : Except String BackendConfig :=
  let has_command := c.command.isSome
  let has_http := c.http_url.isSome
  if !has_command && !has_http then
    .error ("Backend '" ++ c.name ++ "' must have either 'command' or 'http_url'")
  else
    .ok c

/-- Python `s.endswith(suffix)`. -/
def pyEndsWith (s suffix : String) : Bool :=
  suffix.data.isSuffixOf s.data

/-- `BackendConfig.transport_type` (config.py lines 77-85); note the Python
truthiness tests: `if self.command:` and `elif self.http_url and
self.http_url.endswith("/sse")`. -/
def transport_type (c : BackendConfig) : String :=
  if pyTruthyStr c.command then "stdio"
  else if pyTruthyStr c.http_url && pyEndsWith (c.http_url.getD "") "/sse" then "sse"
  else "http"

/-! ## Backend adapter state (backend.py) -/

/-- `MCPBackend` runtime state (backend.py lines 30-53).  `process` is
`some alive` when a subprocess object exists, with `alive` standing for
`poll() is None`; `inited` is the `_initialized` flag; `tools_cache`,
`http_session_id` and `sse_message_url` are the remaining session fields. -/
structure MCPBackend where
  config : BackendConfig
  process : Option Bool := none
  last_used : Nat := 0
  restart_count : Nat := 0
  inited : Bool := false
  tools_cache : Option Json := none
  http_session_id : Option String := none
  sse_message_url : Option String := none

/-- `MCPBackend.is_http` (backend.py lines 60-63). -/
def MCPBackend.is_http (b : MCPBackend) : Bool :=
  b.config.http_url.isSome

/-- `MCPBackend.is_running` (backend.py lines 65-70). -/
def MCPBackend.is_running (b : MCPBackend) : Bool :=
  if b.is_http then b.inited
  else match b.process with
    | some alive => alive
    | none => false

/-- `MCPBackend.stop` (backend.py lines 349-366): HTTP backends drop the
session flags; stdio backends terminate the child when one exists. -/
def MCPBackend.stop (b : MCPBackend) : MCPBackend :=
  if b.is_http then
    { b with inited := false, http_session_id := none, sse_message_url := none }
  else
    match b.process with
    | some _ => { b with process := none, inited := false }
    | none => b

/-- `MCPBackend.get_cached_tools` (backend.py lines 481-489). -/
def MCPBackend.get_cached_tools (b : MCPBackend) : List Json :=
  match b.tools_cache with
  | some cache =>
    if pyTruthy cache then
      match pyGetD cache "result" (Json.obj []) with
      | Json.obj rfields =>
        match pyGetD (Json.obj rfields) "tools" (Json.arr []) with
        | Json.arr tools => tools
        | _ => []
      | _ => []
    else []
  | none => []

/-- The cached `tools/list` reply (backend.py lines 382-384): a shallow
copy of the cache with its `id` slot overwritten by `request.get("id")`. -/
def cachedResponse (cache : Json) (request : Json) : Json :=
  setField cache "id" (pyGet request "id")

/-- Where `send_request` dispatched: the cache short-circuit with its
reply, or one of the two transports. -/
inductive SendRoute where
  | cachedHit (resp : Json)
  | httpDispatch
  | stdioDispatch

/-- `MCPBackend.send_request` (backend.py lines 368-388) up to the
transport dispatch: updates `last_used`, serves `tools/list` from a
truthy cache, otherwise routes to the HTTP or stdio sender. -/
def MCPBackend.send_request (b : MCPBackend) (now : Nat) (request : Json) :
    MCPBackend × SendRoute :=
  let b' := { b with last_used := now }
  if jsonEqStr (pyGet request "method") "tools/list" && pyTruthyOpt b'.tools_cache then
    (b', .cachedHit (cachedResponse (b'.tools_cache.getD Json.null) request))
  else if b'.is_http then (b', .httpDispatch)
  else (b', .stdioDispatch)

/-- A JSON-RPC error object as built throughout backend.py:
`{"jsonrpc": "2.0", "error": {"code": c, "message": m}, "id": i}`. -/
def rpcError (code : Int) (message : String) (idVal : Json) : Json :=
  Json.obj [("jsonrpc", Json.str "2.0"),
            ("error", Json.obj [("code", Json.num code), ("message", Json.str message)]),
            ("id", idVal)]

/-- The synthetic notification acknowledgement (backend.py line 455):
`{"jsonrpc": "2.0", "result": None}` — note: no `id` member. -/
def notifAck : Json :=
  Json.obj [("jsonrpc", Json.str "2.0"), ("result", Json.null)]

/-- Wire outcome of one stdio round trip, as seen by
`_send_stdio_request`: the child replied with a parseable line, the
30-second `select` elapsed (or the line was empty), writing to stdin
raised, or reading/parsing raised. -/
inductive StdioWire where
  | reply (j : Json)
  | timeout
  | writeErr (msg : String)
  | readErr (msg : String)

/-- `MCPBackend._send_stdio_request` (backend.py lines 436-479), with the
lazy `start()` result and the pipe behaviour supplied as oracles; returns
the JSON-RPC response value (state effects of the lazy start are covered
by the `send_request` layer). -/
def sendStdioRequest (b : MCPBackend) (startOk : Bool) (wire : StdioWire)
    (request : Json) : Json :=
  if !b.is_running && !startOk then
    rpcError (-32000) "Backend unavailable" (pyGet request "id")
  else
    match wire with
    | .writeErr msg => rpcError (-32000) msg (pyGet request "id")
    | .reply j =>
      if !(hasKey request "id") then notifAck else j
    | .timeout =>
      if !(hasKey request "id") then notifAck
      else rpcError (-32000) "Timeout waiting for response" (pyGet request "id")
    | .readErr msg =>
      if !(hasKey request "id") then notifAck
      else rpcError (-32000) msg (pyGet request "id")

/-- Outcome of the `initialize` POST in `_init_streamable_http`:
HTTP 200 (with the optional `mcp-session-id` reply header), a non-200
status, or a raised network error. -/
inductive HttpInitOutcome where
  | ok (sessionId : Option String)
  | httpError (status : Nat)
  | netError (msg : String)

/-- `MCPBackend._fetch_tools_http` / `_fetch_tools_stdio` effect on the
adapter (backend.py lines 316-347, 169-192): `fetched` is the decoded
`tools/list` reply, `none` when the fetch failed; the cache is set iff
the reply carries a `"result"` member. -/
def fetchTools (b : MCPBackend) (fetched : Option Json) : MCPBackend :=
  match fetched with
  | some r => if hasKey r "result" then { b with tools_cache := some r } else b
  | none => b

/-- `MCPBackend._init_streamable_http` (backend.py lines 200-247):
on 200 store the session id (if any) and cache tools; on ANY non-200 or
exception, still set `_initialized = true` and report success. -/
def initStreamableHttp (b : MCPBackend) (outcome : HttpInitOutcome)
    (fetched : Option Json) : MCPBackend × Bool :=
  match outcome with
  | .ok sessionId =>
    let b1 := match sessionId with
      | some sid => { b with http_session_id := some sid }
      | none => b
    let b2 := fetchTools b1 fetched
    ({ b2 with inited := true }, true)
  | .httpError _ => ({ b with inited := true }, true)
  | .netError _ => ({ b with inited := true }, true)

/-- Outcome of the SSE handshake in `_init_sse_session`: the initial GET
failed, the stream closed without an endpoint event, the endpoint was
negotiated but the `initialize` POST failed, or everything succeeded.
The negotiated message URL is wire data, supplied by the oracle. -/
inductive SseInitOutcome where
  | connectFail (status : Nat)
  | noEndpoint
  | initFail (messageUrl : String)
  | ok (messageUrl : String)

/-- `MCPBackend._init_sse_session` (backend.py lines 249-314): failures
return `False` and never set `_initialized`; only the fully successful
handshake marks the adapter initialized. -/
def initSseSession (b : MCPBackend) (outcome : SseInitOutcome)
    (fetched : Option Json) : MCPBackend × Bool :=
  match outcome with
  | .connectFail _ => (b, false)
  | .noEndpoint => (b, false)
  | .initFail url => ({ b with sse_message_url := some url }, false)
  | .ok url =>
    let b1 := { b with sse_message_url := some url }
    let b2 := fetchTools b1 fetched
    ({ b2 with inited := true }, true)

/-! ## Gateway meta facade (gateway.py) -/

/-- The gateway registry: backend name → adapter, in registration order
(gateway.py lines 51-57; CPython dicts preserve insertion order). -/
abbrev Registry := List (String × MCPBackend)

/-- One search match `{server, tool, description[:200]}`
(gateway.py lines 454-460). -/
def searchMatch (serverName : String) (toolName toolDesc : String) : Json :=
  Json.obj [("server", Json.str serverName),
            ("tool", Json.str toolName),
            ("description", Json.str (pyTake toolDesc 200))]

/-- Inner loop of `_call_search_tools` over one backend's cached tools
(gateway.py lines 449-463): append a match when the lowercased query is a
substring of the lowercased name or description, then `break` as soon as
`len(matches) >= limit` — checked after every tool, matching or not. -/
def scanTools (serverName : String) (query : String) (limit : Int) :
    List Json → List Json → List Json
  | [], acc => acc
  | tool :: rest, acc =>
    let tool_name := asStr (pyGetD tool "name" (Json.str ""))
    let tool_desc := asStr (pyGetD tool "description" (Json.str ""))
    let acc' :=
      if pyInStr query (pyLower tool_name) || pyInStr query (pyLower tool_desc) then
        acc ++ [searchMatch serverName tool_name tool_desc]
      else acc
    if limit ≤ (acc'.length : Int) then acc'
    else scanTools serverName query limit rest acc'

/-- Outer loop of `_call_search_tools` (gateway.py lines 447-466):
for each backend in registration order, call `start()` (modelled by the
ambient `startFn`, applied unconditionally before any limit check), scan
its cached tools, and `break` once `len(matches) >= limit`.  Returns the
final match list together with the registry's resulting adapter states —
backends past the break point are untouched. -/
def searchBackends (startFn : MCPBackend → MCPBackend) (query : String)
    (limit : Int) : Registry → List Json → List Json × Registry
  | [], acc => (acc, [])
  | (name, b) :: rest, acc =>
    let b' := startFn b
    let acc' := scanTools name query limit b'.get_cached_tools acc
    if limit ≤ (acc'.length : Int) then (acc', (name, b') :: rest)
    else
      let result := searchBackends startFn query limit rest acc'
      (result.1, (name, b') :: result.2)

/-- `Gateway._call_search_tools` (gateway.py lines 431-466): lowercase the
query, reject an empty one with `-32602` (`none` here), read `limit`
(default 10), and run the scan.  The HTTP envelope that serializes the
matches via `json.dumps` is not needed by any claim and is not modelled;
the payload is the match list plus the updated registry. -/
def callSearchTools (startFn : MCPBackend → MCPBackend) (reg : Registry)
    (arguments : Json) : Option (List Json) × Registry :=
  let query := pyLower (asStr (pyGetD arguments "query" (Json.str "")))
  let limit : Int :=
    match jsonGet arguments "limit" with
    | some (Json.num n) => n
    | _ => 10
  if query == "" then (none, reg)
  else
    let result := searchBackends startFn query limit reg []
    (some result.1, result.2)

/-- The four meta-tool handlers of `_meta_tools_call`, abstracted: the
dispatcher below is proved to return the unknown-tool error without
consulting any of them. -/
structure MetaHandlers where
  listServers : Registry → Json → Json × Registry
  listTools : Registry → Json → Json → Json × Registry
  searchTools : Registry → Json → Json → Json × Registry
  invoke : Registry → Json → Json → Json × Registry

/-- `Gateway._meta_tools_call` (gateway.py lines 352-371): extract
`params.name` and `params.arguments`, dispatch on the four meta-tool
names, and otherwise answer `-32601 "Unknown tool: <name>"` echoing the
request id. -/
def metaToolsCall (h : MetaHandlers) (reg : Registry) (body : Json)
    (request_id : Json) : Json × Registry :=
  let params := pyGetD body "params" (Json.obj [])
  let tool_name := pyGetD params "name" (Json.str "")
  let arguments := pyGetD params "arguments" (Json.obj [])
  if jsonEqStr tool_name "gateway_list_servers" then h.listServers reg request_id
  else if jsonEqStr tool_name "gateway_list_tools" then h.listTools reg arguments request_id
  else if jsonEqStr tool_name "gateway_search_tools" then h.searchTools reg arguments request_id
  else if jsonEqStr tool_name "gateway_invoke" then h.invoke reg arguments request_id
  else (rpcError (-32601) ("Unknown tool: " ++ pyFormat tool_name) request_id, reg)

/-- Concrete `start()` behaviour used in the end-to-end scenarios: an HTTP
backend whose `initialize` POST returns a non-200 — which
`_init_streamable_http` treats as success — is marked initialized and
nothing else changes; an already-initialized HTTP backend is untouched
(backend.py lines 81-84). -/
def startHttpOk (b : MCPBackend) : MCPBackend :=
  if b.is_http && !b.inited then (initStreamableHttp b (HttpInitOutcome.httpError 404) none).1
  else b

/-! ## Helper lemmas -/

theorem lookup_setFields_self (fs : List (String × Json)) (k : String) (v : Json) :
    (setFields fs k v).lookup k = some v := by
  induction fs with
  | nil => simp [setFields, List.lookup]
  | cons p rest ih =>
    obtain ⟨k', v'⟩ := p
    by_cases h : k' = k
    · simp [setFields, h, List.lookup]
    · simp [setFields, beq_eq_false_iff_ne.mpr h, List.lookup,
            beq_eq_false_iff_ne.mpr (Ne.symm h), ih]

theorem lookup_setFields_ne (fs : List (String × Json)) (k : String) (v : Json)
    (k' : String) (h : k' ≠ k) :
    (setFields fs k v).lookup k' = fs.lookup k' := by
  induction fs with
  | nil => simp [setFields, List.lookup, beq_eq_false_iff_ne.mpr h]
  | cons p rest ih =>
    obtain ⟨k0, v0⟩ := p
    by_cases h0 : k0 = k
    · subst h0
      simp [setFields, List.lookup, beq_eq_false_iff_ne.mpr h]
    · simp [setFields, beq_eq_false_iff_ne.mpr h0, List.lookup, ih]

theorem jsonGet_cachedResponse_id (fs : List (String × Json)) (request : Json) :
    jsonGet (cachedResponse (Json.obj fs) request) "id" = some (pyGet request "id") := by
  simp [cachedResponse, setField, jsonGet, lookup_setFields_self]

theorem jsonGet_cachedResponse_ne (fs : List (String × Json)) (request : Json)
    (k : String) (h : k ≠ "id") :
    jsonGet (cachedResponse (Json.obj fs) request) k = jsonGet (Json.obj fs) k := by
  simp [cachedResponse, setField, jsonGet, lookup_setFields_ne _ _ _ _ h]

theorem stop_tools_cache (b : MCPBackend) : b.stop.tools_cache = b.tools_cache := by
  unfold MCPBackend.stop
  by_cases h : b.is_http
  · simp [h]
  · simp [h]
    cases b.process <;> simp

theorem stop_not_running (b : MCPBackend) : b.stop.is_running = false := by
  unfold MCPBackend.stop MCPBackend.is_running MCPBackend.is_http
  by_cases h : b.config.http_url.isSome
  · simp [h]
  · cases hp : b.process <;> simp [h, hp]

/-! ## Claims -/

/-- C2: both `command` and `http_url` set is accepted by
`validate_transport` — the code's own docstring says "Ensure exactly one
transport is configured", but only the neither-set case is rejected. -/
theorem validate_transport_accepts_both_transports :
    validate_transport
      { name := "both", command := some "echo hi",
        http_url := some "http://localhost:9001/mcp" } =
    Except.ok
      { name := "both", command := some "echo hi",
        http_url := some "http://localhost:9001/mcp" } ∧
    validate_transport { name := "neither" } =
    Except.error "Backend 'neither' must have either 'command' or 'http_url'" :=
  ⟨rfl, rfl⟩

/-- C8 counterexample: a config whose `command` is set to the empty string
has `transport_type = "http"`, not `"stdio"` as the claim states, because
the source tests Python truthiness (`if self.command:`), not presence. -/
theorem transport_type_empty_command_cex :
    ({ name := "e", command := some "" } : BackendConfig).command.isSome = true ∧
    transport_type { name := "e", command := some "" } = "http" ∧
    transport_type { name := "e", command := some "" } ≠ "stdio" := by
  refine ⟨rfl, rfl, ?_⟩
  decide

/-- C8 amended: `transport_type` is a pure function of the config that
returns "stdio" when `command` is truthy (set and non-empty), "sse" when
`command` is not truthy and `http_url` is truthy and ends in "/sse", and
"http" in every other case — so a config whose `command` is the empty
string is typed by its `http_url`, not as stdio. -/
theorem transport_type_characterization (c : BackendConfig) :
    (pyTruthyStr c.command = true → transport_type c = "stdio") ∧
    (pyTruthyStr c.command = false →
      (pyTruthyStr c.http_url && pyEndsWith (c.http_url.getD "") "/sse") = true →
      transport_type c = "sse") ∧
    (pyTruthyStr c.command = false →
      (pyTruthyStr c.http_url && pyEndsWith (c.http_url.getD "") "/sse") = false →
      transport_type c = "http") := by
  refine ⟨?_, ?_, ?_⟩
  · intro h1
    simp [transport_type, h1]
  · intro h1 h2
    simp [transport_type, h1, h2]
  · intro h1 h2
    simp [transport_type, h1, h2]

/-- C8 amended, witnessed at concrete configs. -/
theorem transport_type_characterization_witness :
    transport_type { name := "a", command := some "npx server" } = "stdio" ∧
    transport_type { name := "b", http_url := some "http://h:1/sse" } = "sse" ∧
    transport_type { name := "c", command := some "", http_url := some "http://h:1/mcp" } = "http" := by
  refine ⟨?_, ?_, ?_⟩
  · exact (transport_type_characterization { name := "a", command := some "npx server" }).1 (by decide)
  · exact (transport_type_characterization { name := "b", http_url := some "http://h:1/sse" }).2.1
      (by decide) (by decide)
  · exact (transport_type_characterization
      { name := "c", command := some "", http_url := some "http://h:1/mcp" }).2.2
      (by decide) (by decide)

/-- A populated `tools/list` cache entry used by the concrete scenarios:
the verbatim JSON-RPC result object with one tool `ping`. -/
def cachePing : Json :=
  Json.obj [("jsonrpc", Json.str "2.0"),
            ("result", Json.obj [("tools", Json.arr
              [Json.obj [("name", Json.str "ping"),
                         ("description", Json.str "pong")]])]),
            ("id", Json.num 1)]

/-- A running HTTP adapter with session state and a populated cache. -/
def bHttpEx : MCPBackend :=
  { config := { name := "h", http_url := some "http://localhost:9001/mcp" },
    inited := true,
    tools_cache := some cachePing,
    http_session_id := some "sess-1" }

/-- C1 counterexample: `stop()` does NOT discard the tools cache — after
stopping an adapter whose cache held the `ping` tool, `tools_cache` is
still that very object (and in particular not empty), contradicting
"after stop() the adapter's tools_cache is empty". -/
theorem stop_preserves_tools_cache_cex :
    bHttpEx.stop.tools_cache = some cachePing ∧
    pyTruthyOpt bHttpEx.stop.tools_cache = true ∧
    bHttpEx.stop.tools_cache ≠ none := by
  refine ⟨rfl, rfl, ?_⟩
  intro h
  rw [stop_tools_cache] at h
  simp [bHttpEx] at h

/-- C1 amended: `stop()` returns the adapter to the not-running state and
clears the initialized flag and session tokens (for HTTP adapters; for
stdio it terminates a live child and clears the flag), but the tools
cache always survives `stop()` unchanged — it is never invalidated. -/
theorem stop_clears_session_not_cache (b : MCPBackend) :
    b.stop.is_running = false ∧
    b.stop.tools_cache = b.tools_cache ∧
    (b.is_http = true →
      b.stop.inited = false ∧ b.stop.http_session_id = none ∧
      b.stop.sse_message_url = none) ∧
    (b.is_http = false → b.process.isSome = true →
      b.stop.process = none ∧ b.stop.inited = false) := by
  refine ⟨stop_not_running b, stop_tools_cache b, ?_, ?_⟩
  · intro h
    simp [MCPBackend.stop, h]
  · intro h hp
    rcases hq : b.process with _ | alive
    · simp [hq] at hp
    · simp [MCPBackend.stop, h, hq]

/-- C1 amended, witnessed on the concrete HTTP adapter. -/
theorem stop_clears_session_not_cache_witness :
    bHttpEx.stop.is_running = false ∧
    bHttpEx.stop.tools_cache = bHttpEx.tools_cache ∧
    bHttpEx.stop.inited = false ∧ bHttpEx.stop.http_session_id = none := by
  obtain ⟨h1, h2, h3, _⟩ := stop_clears_session_not_cache bHttpEx
  obtain ⟨h4, h5, _⟩ := h3 rfl
  exact ⟨h1, h2, h4, h5⟩

theorem send_request_cached_eq (b : MCPBackend) (now : Nat)
    (request : Json) (fs : List (String × Json))
    (hc : b.tools_cache = some (Json.obj fs))
    (ht : pyTruthy (Json.obj fs) = true)
    (hm : jsonEqStr (pyGet request "method") "tools/list" = true) :
    b.send_request now request =
      ({ b with last_used := now },
       SendRoute.cachedHit (cachedResponse (Json.obj fs) request)) := by
  simp [MCPBackend.send_request, hc, hm, pyTruthyOpt, ht]

/-- C4: with a truthy (populated) cache and `request.get("method") ==
"tools/list"`, `send_request` answers from the cache: it returns the
cached object with only the `id` slot overwritten to `request.get("id")`,
touches no transport (the route is the cache hit), leaves the cache
itself unchanged, and two cached replies agree on every field other than
`id`. -/
theorem cached_tools_list_short_circuit (b : MCPBackend) (now : Nat)
    (request : Json) (fs : List (String × Json))
    (hc : b.tools_cache = some (Json.obj fs))
    (ht : pyTruthy (Json.obj fs) = true)
    (hm : jsonEqStr (pyGet request "method") "tools/list" = true) :
    b.send_request now request =
      ({ b with last_used := now },
       SendRoute.cachedHit (cachedResponse (Json.obj fs) request)) ∧
    (b.send_request now request).1.tools_cache = b.tools_cache ∧
    jsonGet (cachedResponse (Json.obj fs) request) "id" =
      some (pyGet request "id") ∧
    (∀ request2 k, k ≠ "id" →
      jsonGet (cachedResponse (Json.obj fs) request) k =
        jsonGet (cachedResponse (Json.obj fs) request2) k) := by
  have hmain := send_request_cached_eq b now request fs hc ht hm
  refine ⟨hmain, ?_, jsonGet_cachedResponse_id fs request, ?_⟩
  · rw [hmain]
  · intro request2 k hk
    rw [jsonGet_cachedResponse_ne fs request k hk,
        jsonGet_cachedResponse_ne fs request2 k hk]

/-- C4, witnessed: a concrete cached adapter answering two `tools/list`
requests with ids 8 and 9. -/
theorem cached_tools_list_short_circuit_witness :
    bHttpEx.send_request 5
        (Json.obj [("jsonrpc", Json.str "2.0"), ("method", Json.str "tools/list"),
                   ("id", Json.num 8)]) =
      ({ bHttpEx with last_used := 5 },
       SendRoute.cachedHit (cachedResponse cachePing
         (Json.obj [("jsonrpc", Json.str "2.0"), ("method", Json.str "tools/list"),
                    ("id", Json.num 8)]))) ∧
    jsonGet (cachedResponse cachePing
        (Json.obj [("jsonrpc", Json.str "2.0"), ("method", Json.str "tools/list"),
                   ("id", Json.num 8)])) "id" = some (Json.num 8) := by
  have h := cached_tools_list_short_circuit bHttpEx 5
    (Json.obj [("jsonrpc", Json.str "2.0"), ("method", Json.str "tools/list"),
               ("id", Json.num 8)])
    [("jsonrpc", Json.str "2.0"),
     ("result", Json.obj [("tools", Json.arr
       [Json.obj [("name", Json.str "ping"), ("description", Json.str "pong")]])]),
     ("id", Json.num 1)]
    rfl rfl rfl
  exact ⟨h.1, rfl⟩

/-- C9: stopping an adapter leaves its populated cache intact, so a later
`tools/list` request is still served from the cache (route `cachedHit`,
no transport restart) and the adapter remains not running afterwards. -/
theorem tools_list_served_from_cache_after_stop (b : MCPBackend) (now : Nat)
    (request : Json) (fs : List (String × Json))
    (hc : b.tools_cache = some (Json.obj fs))
    (ht : pyTruthy (Json.obj fs) = true)
    (hm : jsonEqStr (pyGet request "method") "tools/list" = true) :
    b.stop.send_request now request =
      ({ b.stop with last_used := now },
       SendRoute.cachedHit (cachedResponse (Json.obj fs) request)) ∧
    ({ b.stop with last_used := now } : MCPBackend).is_running = false := by
  have hc' : b.stop.tools_cache = some (Json.obj fs) := by
    rw [stop_tools_cache]; exact hc
  have h := send_request_cached_eq b.stop now request fs hc' ht hm
  refine ⟨h, ?_⟩
  have := stop_not_running b
  simpa [MCPBackend.is_running, MCPBackend.is_http] using this

/-- C9, witnessed on the concrete HTTP adapter after a stop. -/
theorem tools_list_served_from_cache_after_stop_witness :
    bHttpEx.stop.send_request 7
        (Json.obj [("method", Json.str "tools/list"), ("id", Json.num 9)]) =
      ({ bHttpEx.stop with last_used := 7 },
       SendRoute.cachedHit (cachedResponse cachePing
         (Json.obj [("method", Json.str "tools/list"), ("id", Json.num 9)]))) ∧
    ({ bHttpEx.stop with last_used := 7 } : MCPBackend).is_running = false := by
  have h := tools_list_served_from_cache_after_stop bHttpEx 7
    (Json.obj [("method", Json.str "tools/list"), ("id", Json.num 9)])
    [("jsonrpc", Json.str "2.0"),
     ("result", Json.obj [("tools", Json.arr
       [Json.obj [("name", Json.str "ping"), ("description", Json.str "pong")]])]),
     ("id", Json.num 1)]
    rfl rfl rfl
  exact h

theorem pyGet_rpcError_id (code : Int) (message : String) (idVal : Json) :
    pyGet (rpcError code message idVal) "id" = idVal := rfl

theorem pyGet_of_not_hasKey (j : Json) (k : String) (h : hasKey j k = false) :
    pyGet j k = Json.null := by
  unfold hasKey at h
  unfold pyGet
  cases hj : jsonGet j k
  · rfl
  · rw [hj] at h
    simp at h

/-- A running stdio adapter used in the stdio-path scenarios. -/
def bStdioEx : MCPBackend :=
  { config := { name := "echo", command := some "cat" },
    process := some true,
    inited := true }

/-- A notification request: no `id` member. -/
def reqNotif : Json :=
  Json.obj [("jsonrpc", Json.str "2.0"), ("method", Json.str "ping")]

/-- C5 counterexample: for a stdio notification (request without `id`)
the synthesized acknowledgement is `{"jsonrpc": "2.0", "result": null}` —
it carries NO `id` member at all, so it does not "carry id null" as the
claim states (reading the absent field merely defaults to null). -/
theorem stdio_notification_ack_has_no_id_cex :
    sendStdioRequest bStdioEx true (StdioWire.reply Json.null) reqNotif = notifAck ∧
    hasKey reqNotif "id" = false ∧
    jsonGet notifAck "id" = none ∧
    jsonGet notifAck "id" ≠ some Json.null := by
  refine ⟨rfl, rfl, rfl, ?_⟩
  intro h
  have : (none : Option Json) = some Json.null := h
  simp at this

/-- C5 amended: every response the stdio path synthesizes itself — backend
unavailable, write/read errors, timeout, and the notification
acknowledgement (everything except a verbatim backend reply) — satisfies
`response.get("id") == request.get("id")`, and the cached `tools/list`
path stores exactly `request.get("id")` in the reply's `id` slot, whatever
JSON value it is; however the notification acknowledgement has no `id`
member at all (its id only *reads* as null), rather than an explicit
`"id": null`. -/
theorem response_id_echoes_request_id :
    (∀ (b : MCPBackend) (startOk : Bool) (wire : StdioWire) (request : Json),
      (∀ j, wire ≠ StdioWire.reply j) →
      pyGet (sendStdioRequest b startOk wire request) "id" = pyGet request "id") ∧
    (∀ (fs : List (String × Json)) (request : Json),
      jsonGet (cachedResponse (Json.obj fs) request) "id" = some (pyGet request "id")) ∧
    jsonGet notifAck "id" = none := by
  refine ⟨?_, jsonGet_cachedResponse_id, rfl⟩
  intro b startOk wire request hW
  unfold sendStdioRequest
  by_cases hs : (!b.is_running && !startOk) = true
  · simp [hs, pyGet_rpcError_id]
  · simp only [hs, if_false, Bool.not_eq_true] at *
    cases wire with
    | reply j => exact absurd rfl (hW j)
    | writeErr msg => simp [hs, pyGet_rpcError_id]
    | timeout =>
      by_cases hk : hasKey request "id" = true
      · simp [hs, hk, pyGet_rpcError_id]
      · simp only [Bool.not_eq_true] at hk
        simp [hs, hk, pyGet_of_not_hasKey request "id" hk]
        rfl
    | readErr msg =>
      by_cases hk : hasKey request "id" = true
      · simp [hs, hk, pyGet_rpcError_id]
      · simp only [Bool.not_eq_true] at hk
        simp [hs, hk, pyGet_of_not_hasKey request "id" hk]
        rfl

/-- C5 amended, witnessed: a timeout reply to a request with `id` 42
echoes 42, and a cached reply stores the request id. -/
theorem response_id_echoes_request_id_witness :
    pyGet (sendStdioRequest bStdioEx true StdioWire.timeout
      (Json.obj [("method", Json.str "x"), ("id", Json.num 42)])) "id" =
      pyGet (Json.obj [("method", Json.str "x"), ("id", Json.num 42)]) "id" ∧
    jsonGet (cachedResponse (Json.obj [("id", Json.num 1)])
        (Json.obj [("id", Json.str "abc")])) "id" = some (Json.str "abc") := by
  refine ⟨response_id_echoes_request_id.1 bStdioEx true StdioWire.timeout
    (Json.obj [("method", Json.str "x"), ("id", Json.num 42)]) ?_, ?_⟩
  · intro j h
    cases h
  · have h := response_id_echoes_request_id.2.1 [("id", Json.num 1)]
      (Json.obj [("id", Json.str "abc")])
    rw [h]
    rfl

/-- C6: whenever the streamable-HTTP `initialize` handshake fails — any
non-200 status or any network error — `_init_streamable_http` still sets
`_initialized = true` and returns success, swallowing the error; the SSE
handshake, by contrast, reports failure and never marks the adapter
initialized on its failure paths. -/
theorem http_init_failure_swallowed :
    (∀ (b : MCPBackend) (outcome : HttpInitOutcome) (fetched : Option Json),
      (∀ sid, outcome ≠ HttpInitOutcome.ok sid) →
      initStreamableHttp b outcome fetched = ({ b with inited := true }, true)) ∧
    (∀ (b : MCPBackend) (status : Nat) (fetched : Option Json),
      initSseSession b (SseInitOutcome.connectFail status) fetched = (b, false)) ∧
    (∀ (b : MCPBackend) (fetched : Option Json),
      initSseSession b SseInitOutcome.noEndpoint fetched = (b, false)) ∧
    (∀ (b : MCPBackend) (url : String) (fetched : Option Json),
      (initSseSession b (SseInitOutcome.initFail url) fetched).2 = false ∧
      (initSseSession b (SseInitOutcome.initFail url) fetched).1.inited = b.inited) := by
  refine ⟨?_, fun _ _ _ => rfl, fun _ _ => rfl, fun _ _ _ => ⟨rfl, rfl⟩⟩
  intro b outcome fetched hfail
  cases outcome with
  | ok sid => exact absurd rfl (hfail sid)
  | httpError status => rfl
  | netError msg => rfl

/-- C6, witnessed: a 500 handshake and a raised network error both leave
the adapter initialized and report success. -/
theorem http_init_failure_swallowed_witness :
    initStreamableHttp bHttpEx (HttpInitOutcome.httpError 500) none =
      ({ bHttpEx with inited := true }, true) ∧
    initStreamableHttp bHttpEx (HttpInitOutcome.netError "conn refused") none =
      ({ bHttpEx with inited := true }, true) := by
  refine ⟨http_init_failure_swallowed.1 bHttpEx (HttpInitOutcome.httpError 500) none ?_,
          http_init_failure_swallowed.1 bHttpEx (HttpInitOutcome.netError "conn refused") none ?_⟩
  · intro sid h
    cases h
  · intro sid h
    cases h

/-- A cached tool entry `{name, description}`. -/
def toolNamed (n : String) : Json :=
  Json.obj [("name", Json.str n), ("description", Json.str "")]

/-- Cached `tools/list` result with tools `t1`, `t2`, `t3`. -/
def cacheX : Json :=
  Json.obj [("jsonrpc", Json.str "2.0"),
            ("result", Json.obj [("tools", Json.arr
              [toolNamed "t1", toolNamed "t2", toolNamed "t3"])]),
            ("id", Json.num 1)]

/-- Cached `tools/list` result with tools `t3`, `t4`. -/
def cacheY : Json :=
  Json.obj [("jsonrpc", Json.str "2.0"),
            ("result", Json.obj [("tools", Json.arr
              [toolNamed "t3", toolNamed "t4"])]),
            ("id", Json.num 1)]

/-- Backend `x`: running (initialized) HTTP adapter with cached tools. -/
def bX : MCPBackend :=
  { config := { name := "x", http_url := some "http://localhost:9001/mcp" },
    inited := true, tools_cache := some cacheX }

/-- Backend `y`: a not-running HTTP adapter with cached tools. -/
def bY : MCPBackend :=
  { config := { name := "y", http_url := some "http://localhost:9002/mcp" },
    inited := false, tools_cache := some cacheY }

/-- A not-running HTTP adapter whose surviving cache holds tool `ping`. -/
def bX0 : MCPBackend :=
  { config := { name := "x", http_url := some "http://localhost:9001/mcp" },
    inited := false, tools_cache := some cachePing }

/-- C3 counterexample: `gateway_search_tools` with `limit = 0` over a
registry whose first backend is not running but has a matching cached
tool STARTS that backend (its `start()` runs before any limit check) and
returns ONE match (the append precedes the `len >= limit` test) — not
zero matches and no starts as claimed. -/
theorem search_limit_zero_starts_first_backend_cex :
    bX0.is_running = false ∧
    callSearchTools startHttpOk [("x", bX0)]
        (Json.obj [("query", Json.str "ping"), ("limit", Json.num 0)]) =
      (some [searchMatch "x" "ping" "pong"], [("x", { bX0 with inited := true })]) ∧
    ({ bX0 with inited := true } : MCPBackend).is_running = true ∧
    [searchMatch "x" "ping" "pong"] ≠ ([] : List Json) := by
  refine ⟨rfl, rfl, rfl, ?_⟩
  intro h
  cases h

theorem scanTools_limit_nonpos (serverName query : String) (lim : Int)
    (h : lim ≤ 0) (ts : List Json) :
    (scanTools serverName query lim ts []).length ≤ 1 := by
  cases ts with
  | nil => simp [scanTools]
  | cons t rest =>
    by_cases hc : (pyInStr query (pyLower (asStr (pyGetD t "name" (Json.str "")))) ||
        pyInStr query (pyLower (asStr (pyGetD t "description" (Json.str ""))))) = true
    · simp only [scanTools, hc, if_true, List.nil_append]
      rw [if_pos (by simp; omega)]
      simp
    · simp only [scanTools, hc, if_false]
      rw [if_pos (by simpa using h)]
      simp

/-- C3 amended: with `limit ≤ 0`, the search loop still starts the FIRST
registered backend (on a non-empty registry) and examines at most its
first cached tool, returning at most one match; the loop then breaks, so
every backend after the first is left untouched.  On an empty registry it
returns no matches and touches nothing. -/
theorem search_limit_zero_first_backend_only
    (startFn : MCPBackend → MCPBackend) (query : String) (lim : Int)
    (h : lim ≤ 0) :
    searchBackends startFn query lim [] [] = ([], []) ∧
    ∀ (name : String) (b : MCPBackend) (rest : Registry),
      (searchBackends startFn query lim ((name, b) :: rest) []).1.length ≤ 1 ∧
      (searchBackends startFn query lim ((name, b) :: rest) []).2 =
        (name, startFn b) :: rest := by
  refine ⟨rfl, ?_⟩
  intro name b rest
  have hcond : lim ≤
      ((scanTools name query lim (startFn b).get_cached_tools []).length : Int) :=
    le_trans h (Int.natCast_nonneg _)
  constructor
  · simp only [searchBackends]
    rw [if_pos hcond]
    exact scanTools_limit_nonpos name query lim h _
  · simp only [searchBackends]
    rw [if_pos hcond]

/-- C3 amended, witnessed on the concrete one-backend registry. -/
theorem search_limit_zero_first_backend_only_witness :
    (searchBackends startHttpOk "ping" 0 [("x", bX0)] []).1.length ≤ 1 ∧
    (searchBackends startHttpOk "ping" 0 [("x", bX0)] []).2 =
      [("x", startHttpOk bX0)] := by
  exact (search_limit_zero_first_backend_only startHttpOk "ping" 0
    (by norm_num)).2 "x" bX0 []

/-- C7: the search short-circuits on the limit in registration order.
With backend `x` (cached tools `t1`, `t2`, `t3`, all matching) registered
before `y` (cached tools `t3`, `t4`), query `"t"` and `limit = 2`, the
call returns exactly two matches, both from `x` (`t3` of `x` is skipped),
the final registry leaves `y` exactly as it was, and `y` is still not
running afterwards. -/
theorem search_limit_short_circuit_scenario :
    callSearchTools startHttpOk [("x", bX), ("y", bY)]
        (Json.obj [("query", Json.str "t"), ("limit", Json.num 2)]) =
      (some [searchMatch "x" "t1" "", searchMatch "x" "t2" ""],
       [("x", bX), ("y", bY)]) ∧
    bY.is_running = false := by
  exact ⟨rfl, rfl⟩

/-- C10: a `tools/call` whose `params.name` is none of the four meta-tool
names is answered by `_meta_tools_call` — for ANY handler implementations
and any registry — with the JSON-RPC error `-32601` and message
`"Unknown tool: <name>"`, echoing the request id, and the registry is
returned unchanged (no backend is consulted). -/
theorem meta_unknown_tool_error (h : MetaHandlers) (reg : Registry)
    (body : Json) (request_id : Json) (nm : String)
    (hname : pyGetD (pyGetD body "params" (Json.obj [])) "name" (Json.str "") =
      Json.str nm)
    (hnot : nm ∉ (["gateway_list_servers", "gateway_list_tools",
                   "gateway_search_tools", "gateway_invoke"] : List String)) :
    metaToolsCall h reg body request_id =
      (rpcError (-32601) ("Unknown tool: " ++ nm) request_id, reg) := by
  simp only [List.mem_cons, List.not_mem_nil, or_false, not_or] at hnot
  obtain ⟨h1, h2, h3, h4⟩ := hnot
  simp [metaToolsCall, hname, jsonEqStr,
        beq_eq_false_iff_ne.mpr h1, beq_eq_false_iff_ne.mpr h2,
        beq_eq_false_iff_ne.mpr h3, beq_eq_false_iff_ne.mpr h4, pyFormat]

/-- Trivial handler pack for the C10 witness. -/
def dummyHandlers : MetaHandlers :=
  { listServers := fun reg _ => (Json.null, reg),
    listTools := fun reg _ _ => (Json.null, reg),
    searchTools := fun reg _ _ => (Json.null, reg),
    invoke := fun reg _ _ => (Json.null, reg) }

/-- C10, witnessed: calling the unknown tool `bogus` with request id 3. -/
theorem meta_unknown_tool_error_witness :
    metaToolsCall dummyHandlers [("x", bX)]
        (Json.obj [("method", Json.str "tools/call"),
                   ("params", Json.obj [("name", Json.str "bogus")]),
                   ("id", Json.num 3)])
        (Json.num 3) =
      (rpcError (-32601) "Unknown tool: bogus" (Json.num 3), [("x", bX)]) := by
  exact meta_unknown_tool_error dummyHandlers [("x", bX)]
    (Json.obj [("method", Json.str "tools/call"),
               ("params", Json.obj [("name", Json.str "bogus")]),
               ("id", Json.num 3)])
    (Json.num 3) "bogus" rfl (by decide)
